import Mathlib

/-!
Verification development for a small futures-trading CLI consisting of an
input validator, an HMAC-SHA256 signed REST client and an order dispatcher.

Modelling conventions (shallow embedding of the Python source):
* Python strings are lists of character codes (`List Nat`), faithful for
  ASCII data, which is all this program handles.
* Python floats are rationals; `float(...)` parsing and `str(float)`
  formatting are modelled for plain decimal literals (optional sign, digits,
  optional fractional part), the only numeric inputs this CLI deals in.
* Python dicts are insertion-ordered association lists; assignment updates
  an existing key in place and appends a fresh key at the end, as CPython
  dicts do.
* Exceptions are `Except` values; an HTTP response is a status code plus an
  optional parsed JSON object (`none` models a body that fails JSON parsing).
-/

set_option maxHeartbeats 1000000
set_option maxRecDepth 100000

/-- Character codes of a Lean string literal; used to write concrete Python
strings inside definitions and theorems. -/
def pystr (s : String) : List Nat := s.toList.map Char.toNat

/-- Single-quote character code, used when spelling Python error messages. -/
def sqc : List Nat := [39]

/-- Python whitespace bytes recognised by str.strip: space, tab, LF, CR, VT, FF. -/
def isPyWs (n : Nat) : Bool := n = 32 || n = 9 || n = 10 || n = 13 || n = 11 || n = 12

/-- Model of Python str.strip(): drop whitespace from both ends. -/
def pyStrip (l : List Nat) : List Nat :=
  (((l.dropWhile isPyWs).reverse.dropWhile isPyWs)).reverse

/-- Model of Python str.upper() on one ASCII character code. -/
def pyUpperChar (n : Nat) : Nat := if 97 ≤ n ∧ n ≤ 122 then n - 32 else n

/-- Model of Python str.upper() (ASCII scope). -/
def pyUpper (l : List Nat) : List Nat := l.map pyUpperChar

/-- ASCII alphanumeric test, modelling str.isalnum on the ASCII range. -/
def isAlnumChar (n : Nat) : Bool :=
  (48 ≤ n && n ≤ 57) || (65 ≤ n && n ≤ 90) || (97 ≤ n && n ≤ 122)

/-- ASCII decimal digit test. -/
def isDigitChar (n : Nat) : Bool := 48 ≤ n && n ≤ 57

/-- Numeric value of a digit string (codes 48..57), most significant first. -/
def digitsToNat (l : List Nat) : Nat := l.foldl (fun a d => a * 10 + (d - 48)) 0

/-- Decimal digit codes of `n / 10 ^ ?`, auxiliary for `natRepr`. -/
def natReprAux : Nat → Nat → List Nat
  | 0, _ => []
  | Nat.succ fuel, n => if n = 0 then [] else natReprAux fuel (n / 10) ++ [48 + n % 10]

/-- Decimal representation of a natural number, as character codes. -/
def natRepr (n : Nat) : List Nat := if n = 0 then [48] else natReprAux n n

/-- Model of Python str(int). -/
def intRepr (i : Int) : List Nat :=
  if i < 0 then 45 :: natRepr i.natAbs else natRepr i.natAbs

/-- Model of Python str(float) for floats holding a decimally representable
value: minimal exact decimal expansion with at least one fractional digit
(str(2.0) is the text 2.0, str(1.5) is 1.5).  Non-decimal rationals never
arise from parsed decimal literals; they fall back to a fraction spelling. -/
def floatRepr (q : ℚ) : List Nat :=
  let sgn : List Nat := if q < 0 then [45] else []
  let n := q.num.natAbs
  match (List.range 40).find? (fun k => q.den ∣ 10 ^ k) with
  | some k =>
    let m := n * 10 ^ k / q.den
    if k = 0 then sgn ++ natRepr m ++ [46, 48]
    else
      let ds := natRepr m
      let ds := if ds.length ≤ k then List.replicate (k + 1 - ds.length) 48 ++ ds else ds
      sgn ++ ds.take (ds.length - k) ++ [46] ++ ds.drop (ds.length - k)
  | none => sgn ++ natRepr n ++ [47] ++ natRepr q.den

/-- Model of Python float(str) on plain decimal literals: surrounding
whitespace, optional sign, digits with an optional dot somewhere among them
(at least one digit overall).  Exponent forms, infinities and nan, and digit
underscores are outside the model scope. -/
def pyParseFloat (l : List Nat) : Option ℚ :=
  let t := pyStrip l
  let signed : Int × List Nat :=
    match t with
    | 43 :: r => (1, r)
    | 45 :: r => (-1, r)
    | r => (1, r)
  let ip := signed.2.takeWhile isDigitChar
  let rest := signed.2.drop ip.length
  match rest with
  | [] =>
    if ip = [] then none
    else some (Rat.divInt (signed.1 * (digitsToNat ip : Int)) 1)
  | 46 :: fr =>
    if fr.all isDigitChar && (ip ≠ [] || fr ≠ []) then
      some (Rat.divInt
        (signed.1 * ((digitsToNat ip : Int) * (10 : Int) ^ fr.length + (digitsToNat fr : Int)))
        ((10 : Int) ^ fr.length))
    else none
  | _ => none

/-- A Python value as it occurs in this program: a string, a float, or an
int (timestamps). -/
inductive PVal where
  | s (v : List Nat)
  | f (v : ℚ)
  | i (v : Int)
deriving DecidableEq

/-- Model of Python str(v): how a value prints inside an f-string or when
form-encoded. -/
def pvalStr : PVal → List Nat
  | .s v => v
  | .f v => floatRepr v
  | .i v => intRepr v

/-- Printed form of a possibly absent value (None prints as the word None). -/
def pvalReprOpt : Option PVal → List Nat
  | none => pystr "None"
  | some v => pvalStr v

/-- Model of Python float(x) on a possibly absent str-or-float argument.
float(None) raises TypeError, which the validators catch; that failure is
modelled as `none`. -/
def toFloat : Option PVal → Option ℚ
  | none => none
  | some (.s v) => pyParseFloat v
  | some (.f v) => some v
  | some (.i v) => some (Rat.divInt v 1)

/-- A validation failure carries its human-readable message. -/
abbrev Msg := List Nat

instance {ε α : Type} [DecidableEq ε] [DecidableEq α] : DecidableEq (Except ε α) := fun x y =>
  match x, y with
  | .error a, .error b =>
    decidable_of_iff (a = b) ⟨fun h => by rw [h], fun h => by injection h⟩
  | .error _, .ok _ => isFalse (fun h => Except.noConfusion h)
  | .ok _, .error _ => isFalse (fun h => Except.noConfusion h)
  | .ok a, .ok b =>
    decidable_of_iff (a = b) ⟨fun h => by rw [h], fun h => by injection h⟩

/-- validators.validate_symbol: strip, upper-case, fail when empty or not
alphanumeric, return the normalised symbol. -/
def validate_symbol (symbol : List Nat) : Except Msg (List Nat) :=
  let s := pyUpper (pyStrip symbol)
  if s = [] then .error (pystr "Symbol cannot be empty.")
  else if ¬ s.all isAlnumChar then
    .error (pystr "Symbol " ++ sqc ++ s ++ sqc ++
      pystr " must contain only letters and numbers (e.g. BTCUSDT).")
  else .ok s

/-- validators.validate_side: strip, upper-case, require membership in
VALID_SIDES = {BUY, SELL}; the message lists the sorted valid set. -/
def validate_side (side : List Nat) : Except Msg (List Nat) :=
  let s := pyUpper (pyStrip side)
  if s = pystr "BUY" ∨ s = pystr "SELL" then .ok s
  else .error (pystr "Invalid side " ++ sqc ++ s ++ sqc ++
    pystr ". Must be one of: BUY, SELL.")

/-- validators.validate_order_type: strip, upper-case, require membership in
VALID_ORDER_TYPES = {MARKET, LIMIT, TAKE_PROFIT}; the message lists the
sorted valid set. -/
def validate_order_type (order_type : List Nat) : Except Msg (List Nat) :=
  let s := pyUpper (pyStrip order_type)
  if s = pystr "MARKET" ∨ s = pystr "LIMIT" ∨ s = pystr "TAKE_PROFIT" then .ok s
  else .error (pystr "Invalid order type " ++ sqc ++ s ++ sqc ++
    pystr ". Must be one of: LIMIT, MARKET, TAKE_PROFIT.")

/-- validators.validate_quantity: float(quantity), catching TypeError and
ValueError into the not-a-valid-number message, then require > 0.  There is
no separate required message here: float(None) lands in the same catch. -/
def validate_quantity (quantity : Option PVal) : Except Msg ℚ :=
  match toFloat quantity with
  | none =>
    .error (pystr "Quantity " ++ sqc ++ pvalReprOpt quantity ++ sqc ++
      pystr " is not a valid number.")
  | some qty =>
    if qty ≤ 0 then
      .error (pystr "Quantity must be greater than 0. Got: " ++ floatRepr qty)
    else .ok qty

/-- validators.validate_price: None is rejected first with a dedicated
required message, then float() parsing, then the > 0 bound. -/
def validate_price (price : Option PVal) : Except Msg ℚ :=
  match price with
  | none => .error (pystr "Price is required for LIMIT orders.")
  | some v =>
    match toFloat (some v) with
    | none =>
      .error (pystr "Price " ++ sqc ++ pvalStr v ++ sqc ++
        pystr " is not a valid number.")
    | some p =>
      if p ≤ 0 then
        .error (pystr "Price must be greater than 0. Got: " ++ floatRepr p)
      else .ok p

/-- validators.validate_stop_price: same shape as validate_price with its
own messages. -/
def validate_stop_price (stop_price : Option PVal) : Except Msg ℚ :=
  match stop_price with
  | none => .error (pystr "Stop price (--stop-price) is required for STOP_MARKET orders.")
  | some v =>
    match toFloat (some v) with
    | none =>
      .error (pystr "Stop price " ++ sqc ++ pvalStr v ++ sqc ++
        pystr " is not a valid number.")
    | some sp =>
      if sp ≤ 0 then
        .error (pystr "Stop price must be greater than 0. Got: " ++ floatRepr sp)
      else .ok sp

/-- The dict validators.validate_all builds: symbol, side and order_type are
always present, the numeric keys only for the order types that add them. -/
structure Validated where
  symbol : List Nat
  side : List Nat
  order_type : List Nat
  quantity : Option ℚ
  price : Option ℚ
  stop_price : Option ℚ
deriving DecidableEq

/-- The quantity step of validate_all: for MARKET and LIMIT a missing
quantity raises the qty-required message, otherwise validate_quantity runs;
for other types quantity is ignored entirely. -/
def vaQuantity (t : List Nat) (quantity : Option PVal) : Except Msg (Option ℚ) :=
  if t = pystr "MARKET" ∨ t = pystr "LIMIT" then
    match quantity with
    | none => .error (pystr "--qty is required for " ++ t ++ pystr " orders.")
    | some qv =>
      match validate_quantity (some qv) with
      | .error e => .error e
      | .ok q => .ok (some q)
  else .ok none

/-- The price step of validate_all: validate_price runs only for LIMIT. -/
def vaPrice (t : List Nat) (price : Option PVal) : Except Msg (Option ℚ) :=
  if t = pystr "LIMIT" then
    match validate_price price with
    | .error e => .error e
    | .ok p => .ok (some p)
  else .ok none

/-- The stop-price step of validate_all: validate_stop_price runs only for
TAKE_PROFIT. -/
def vaStopPrice (t : List Nat) (stop_price : Option PVal) : Except Msg (Option ℚ) :=
  if t = pystr "TAKE_PROFIT" then
    match validate_stop_price stop_price with
    | .error e => .error e
    | .ok sp => .ok (some sp)
  else .ok none

/-- validators.validate_all: order type first, then symbol, then side (the
dict literal evaluates them in that order), then quantity, price and stop
price conditioned on the validated order type; the first raised
ValidationError aborts the rest. -/
def validate_all (symbol side order_type : List Nat)
    (quantity price stop_price : Option PVal) : Except Msg Validated :=
  Except.bind (validate_order_type order_type) fun t =>
  Except.bind (validate_symbol symbol) fun sy =>
  Except.bind (validate_side side) fun sd =>
  Except.bind (vaQuantity t quantity) fun q =>
  Except.bind (vaPrice t price) fun p =>
  Except.bind (vaStopPrice t stop_price) fun sp =>
  .ok ⟨sy, sd, t, q, p, sp⟩

/-- Force a Nat to literal form before continuing.  All hash intermediates
are threaded through this, so kernel and elaborator reduction of concrete
digests stays linear instead of re-evaluating shared subterms. -/
def fNat {α : Type} (n : Nat) (k : Nat → α) : α :=
  match n with
  | 0 => k 0
  | Nat.succ m => k (m + 1)

/-- 2 ^ 32, the modulus of SHA-256 word arithmetic. -/
def wordMod : Nat := 4294967296

/-- 32-bit right rotation. -/
def rotr (r x : Nat) : Nat := ((x >>> r) ||| (x <<< (32 - r))) % wordMod

/-- SHA-256 choice function (the not is xor with 2 ^ 32 - 1). -/
def shaCh (x y z : Nat) : Nat := (x &&& y) ^^^ ((x ^^^ 4294967295) &&& z)

/-- SHA-256 majority function. -/
def shaMaj (x y z : Nat) : Nat := (x &&& y) ^^^ (x &&& z) ^^^ (y &&& z)

/-- SHA-256 big Sigma0. -/
def shaS0 (x : Nat) : Nat := rotr 2 x ^^^ rotr 13 x ^^^ rotr 22 x

/-- SHA-256 big Sigma1. -/
def shaS1 (x : Nat) : Nat := rotr 6 x ^^^ rotr 11 x ^^^ rotr 25 x

/-- SHA-256 small sigma0. -/
def shaLs0 (x : Nat) : Nat := rotr 7 x ^^^ rotr 18 x ^^^ (x >>> 3)

/-- SHA-256 small sigma1. -/
def shaLs1 (x : Nat) : Nat := rotr 17 x ^^^ rotr 19 x ^^^ (x >>> 10)

/-- The SHA-256 round constants (FIPS 180-4, written in decimal). -/
def shaK : List Nat :=
  [1116352408, 1899447441, 3049323471, 3921009573, 961987163, 1508970993,
   2453635748, 2870763221, 3624381080, 310598401, 607225278, 1426881987,
   1925078388, 2162078206, 2614888103, 3248222580, 3835390401, 4022224774,
   264347078, 604807628, 770255983, 1249150122, 1555081692, 1996064986,
   2554220882, 2821834349, 2952996808, 3210313671, 3336571891, 3584528711,
   113926993, 338241895, 666307205, 773529912, 1294757372, 1396182291,
   1695183700, 1986661051, 2177026350, 2456956037, 2730485921, 2820302411,
   3259730800, 3345764771, 3516065817, 3600352804, 4094571909, 275423344,
   430227734, 506948616, 659060556, 883997877, 958139571, 1322822218,
   1537002063, 1747873779, 1955562222, 2024104815, 2227730452, 2361852424,
   2428436474, 2756734187, 3204031479, 3329325298]

/-- The SHA-256 initial hash state (FIPS 180-4, written in decimal). -/
def shaH0 : List Nat :=
  [1779033703, 3144134277, 1013904242, 2773480762,
   1359893119, 2600822924, 528734635, 1541459225]

/-- Big-endian 32-bit words of a byte list. -/
def bytesToWords : List Nat → List Nat
  | a :: b :: c :: d :: rest => (((a * 256 + b) * 256 + c) * 256 + d) :: bytesToWords rest
  | _ => []

/-- Message-schedule extension; `acc` holds the words produced so far in
reverse order, so the words 2, 7, 15 and 16 places back sit at indices
1, 6, 14 and 15. -/
def schedExt : Nat → List Nat → List Nat
  | 0, acc => acc.reverse
  | Nat.succ fuel, acc =>
    fNat ((shaLs1 (acc.getD 1 0) + acc.getD 6 0 + shaLs0 (acc.getD 14 0) + acc.getD 15 0) % wordMod)
      fun w => schedExt fuel (w :: acc)

/-- The 64 SHA-256 compression rounds over paired constants and schedule
words, state carried as eight separate words. -/
def shaRounds : List Nat → List Nat → Nat → Nat → Nat → Nat → Nat → Nat → Nat → Nat → List Nat
  | [], _, a, b, c, d, e, f2, g, h => [a, b, c, d, e, f2, g, h]
  | _ :: _, [], a, b, c, d, e, f2, g, h => [a, b, c, d, e, f2, g, h]
  | kc :: ks, w :: ws, a, b, c, d, e, f2, g, h =>
    fNat ((h + shaS1 e + shaCh e f2 g + kc + w) % wordMod) fun t1 =>
    fNat ((shaS0 a + shaMaj a b c) % wordMod) fun t2 =>
    fNat ((t1 + t2) % wordMod) fun a2 =>
    fNat ((d + t1) % wordMod) fun e2 =>
    shaRounds ks ws a2 a b c e2 e f2 g

/-- One SHA-256 block: schedule, rounds, then state addition. -/
def processBlock (hs : List Nat) (block : List Nat) : List Nat :=
  let ws := schedExt 48 (bytesToWords block).reverse
  let out := shaRounds shaK ws (hs.getD 0 0) (hs.getD 1 0) (hs.getD 2 0) (hs.getD 3 0)
    (hs.getD 4 0) (hs.getD 5 0) (hs.getD 6 0) (hs.getD 7 0)
  List.zipWith (fun x y => (x + y) % wordMod) hs out

/-- Split a byte list into 64-byte blocks; the fuel is the list length. -/
def toBlocks : Nat → List Nat → List (List Nat)
  | 0, _ => []
  | Nat.succ fuel, l => if l = [] then [] else l.take 64 :: toBlocks fuel (l.drop 64)

/-- The 8-byte big-endian bit-length trailer of the SHA-256 padding. -/
def lenBytes64 (n : Nat) : List Nat :=
  [(n >>> 56) % 256, (n >>> 48) % 256, (n >>> 40) % 256, (n >>> 32) % 256,
   (n >>> 24) % 256, (n >>> 16) % 256, (n >>> 8) % 256, n % 256]

/-- SHA-256 of a byte list, as 32 digest bytes. -/
def sha256 (msg : List Nat) : List Nat :=
  let padded := msg ++ 128 ::
    (List.replicate ((119 - msg.length % 64) % 64) 0 ++ lenBytes64 (8 * msg.length))
  let hs := (toBlocks padded.length padded).foldl processBlock shaH0
  hs.foldr (fun w acc => (w >>> 24) % 256 :: (w >>> 16) % 256 :: (w >>> 8) % 256 :: w % 256 :: acc) []

/-- HMAC-SHA256 (RFC 2104) with block size 64, as hashlib and hmac provide
it: long keys are hashed, keys are zero-padded to the block size, then the
nested inner (xor 0x36) and outer (xor 0x5c) hashes run. -/
def hmacSha256 (key msg : List Nat) : List Nat :=
  let k1 := if 64 < key.length then sha256 key else key
  let k0 := k1 ++ List.replicate (64 - k1.length) 0
  sha256 ((k0.map fun b => b ^^^ 92) ++ sha256 ((k0.map fun b => b ^^^ 54) ++ msg))

/-- Lowercase hex digit character code. -/
def hexLowerChar (n : Nat) : Nat := if n < 10 then 48 + n else 87 + n

/-- hexdigest(): lowercase hex character codes of a byte list. -/
def hexdigest (bytes : List Nat) : List Nat :=
  bytes.foldr (fun b acc => hexLowerChar (b / 16) :: hexLowerChar (b % 16) :: acc) []

/-- Bytes urllib quote_plus leaves unescaped: ASCII alphanumerics and
underscore, dot, dash, tilde. -/
def safeByte (b : Nat) : Bool := isAlnumChar b || b = 45 || b = 46 || b = 95 || b = 126

/-- Uppercase hex digit character code, as used in percent-escapes. -/
def hexUpperChar (n : Nat) : Nat := if n < 10 then 48 + n else 55 + n

/-- quote_plus on one byte: safe bytes unchanged, space becomes plus,
everything else a percent-escape. -/
def quotePlusByte (b : Nat) : List Nat :=
  if safeByte b then [b] else if b = 32 then [43] else [37, hexUpperChar (b / 16), hexUpperChar (b % 16)]

/-- urllib quote_plus over a byte string (ASCII scope). -/
def quotePlus (l : List Nat) : List Nat := (l.map quotePlusByte).flatten

/-- A Python dict as the client uses it: insertion-ordered key-value pairs. -/
abbrev Dict := List (List Nat × PVal)

/-- First value bound to a key in an association list. -/
def dlookup {β : Type} : List (List Nat × β) → List Nat → Option β
  | [], _ => none
  | (k, v) :: rest, key => if k = key then some v else dlookup rest key

/-- Python dict assignment d[key] = v: update in place when the key exists,
append at the end when it is fresh. -/
def dictSet (d : Dict) (key : List Nat) (v : PVal) : Dict :=
  match dlookup d key with
  | some _ => d.map fun kv => if kv.1 = key then (key, v) else kv
  | none => d ++ [(key, v)]

/-- urlencode(params): ampersand-joined key=value pairs, each side
quote_plus-escaped, values printed with str(). -/
def urlencode (d : Dict) : List Nat :=
  List.intercalate [38] (d.map fun kv => quotePlus kv.1 ++ [61] ++ quotePlus (pvalStr kv.2))

/-- BinanceClient._sign: lowercase hex HMAC-SHA256 of the url-encoded
parameter dict, keyed by the UTF-8 bytes of the api secret. -/
def client_sign (secret : List Nat) (params : Dict) : List Nat :=
  hexdigest (hmacSha256 secret (urlencode params))

/-- BinanceClient._timestamp: local milliseconds plus the stored offset. -/
def client_timestamp (now offset : Int) : Int := now + offset

/-- The parameter-mutating prefix of BinanceClient._post: assign
params[timestamp], then assign params[signature] computed over the dict that
already contains the timestamp.  The result is the dict the caller ends up
holding and the form body that is sent. -/
def post_params (secret : List Nat) (offset now : Int) (params : Dict) : Dict :=
  let p1 := dictSet params (pystr "timestamp") (.i (client_timestamp now offset))
  dictSet p1 (pystr "signature") (.s (client_sign secret p1))

/-- A JSON leaf as this client consumes it: an integer or a string. -/
inductive JVal where
  | jint (n : Int)
  | jstr (s : List Nat)
deriving DecidableEq

/-- A parsed JSON object body. -/
abbrev JsonObj := List (List Nat × JVal)

/-- An HTTP response: status code plus the parsed JSON object, with `none`
modelling a body on which response.json() raises. -/
structure HttpResponse where
  status : Nat
  body : Option JsonObj
deriving DecidableEq

/-- Outcome of BinanceClient._post after the response arrives. -/
inductive PostOutcome where
  | ok (data : JsonObj)
  | apiError (httpStatus : Nat) (code : JVal) (msg : JVal)
  | jsonError
deriving DecidableEq

/-- requests Response.ok: true exactly when the status code is below 400. -/
def response_ok (status : Nat) : Bool := status < 400

/-- The response-handling suffix of BinanceClient._post: response.json()
runs first and its failure propagates as is; then a non-ok status raises
BinanceAPIError with code and msg read from the body, defaulting to -1 and
Unknown error when those keys are absent. -/
def handle_response (resp : HttpResponse) : PostOutcome :=
  match resp.body with
  | none => .jsonError
  | some data =>
    if response_ok resp.status then .ok data
    else .apiError resp.status ((dlookup data (pystr "code")).getD (.jint (-1)))
      ((dlookup data (pystr "msg")).getD (.jstr (pystr "Unknown error")))

/-- BinanceClient.get_server_time: GET the time endpoint, then
r.json().get(serverTime, 0).  `none` for the response models the GET itself
raising; a `none` body models r.json() raising.  The default 0 applies only
when the JSON object lacks the key. -/
def get_server_time (resp : Option HttpResponse) : Except Unit JVal :=
  match resp with
  | none => .error ()
  | some r =>
    match r.body with
    | none => .error ()
    | some data => .ok ((dlookup data (pystr "serverTime")).getD (.jint 0))

/-- BinanceClient._sync_time, run during construction: read the clock,
call get_server_time, read the clock again, and set the offset to
serverTime - (t0 + t1) // 2 (Python floor division).  Any exception on the
way - the GET raising, json() raising, or the subtraction hitting a
non-integer serverTime - is caught and the offset set to 0; construction
itself always proceeds. -/
def sync_time (t0 t1 : Int) (resp : Option HttpResponse) : Int :=
  match get_server_time resp with
  | .error _ => 0
  | .ok (.jint st) => st - Int.fdiv (t0 + t1) 2
  | .ok (.jstr _) => 0

/-- orders.place_market_order request dict, before the client appends
timestamp and signature. -/
def market_order_params (symbol side : List Nat) (quantity : ℚ) : Dict :=
  [(pystr "symbol", .s symbol), (pystr "side", .s side),
   (pystr "type", .s (pystr "MARKET")), (pystr "quantity", .f quantity)]

/-- orders.place_limit_order request dict. -/
def limit_order_params (symbol side : List Nat) (quantity price : ℚ)
    (time_in_force : List Nat) : Dict :=
  [(pystr "symbol", .s symbol), (pystr "side", .s side),
   (pystr "type", .s (pystr "LIMIT")), (pystr "quantity", .f quantity),
   (pystr "price", .f price), (pystr "timeInForce", .s time_in_force)]

/-- orders.place_take_profit_market_order request dict: closePosition is the
string true and no quantity key exists. -/
def take_profit_market_order_params (symbol side : List Nat) (stop_price : ℚ) : Dict :=
  [(pystr "symbol", .s symbol), (pystr "side", .s side),
   (pystr "type", .s (pystr "TAKE_PROFIT_MARKET")), (pystr "stopPrice", .f stop_price),
   (pystr "closePosition", .s (pystr "true"))]

/-! ## Helper lemmas -/

theorem isAlnumChar_pyUpperChar (n : Nat) : isAlnumChar (pyUpperChar n) = isAlnumChar n := by
  rw [Bool.eq_iff_iff]
  unfold pyUpperChar
  split
  all_goals simp only [isAlnumChar, Bool.or_eq_true, Bool.and_eq_true, decide_eq_true_eq]
  all_goals omega

theorem all_isAlnumChar_pyUpper (l : List Nat) :
    (pyUpper l).all isAlnumChar = l.all isAlnumChar := by
  induction l with
  | nil => rfl
  | cons a t ih =>
    simp only [pyUpper, List.map_cons, List.all_cons] at *
    rw [isAlnumChar_pyUpperChar, ih]

theorem pyUpper_eq_nil (l : List Nat) : pyUpper l = [] ↔ l = [] := by
  simp [pyUpper]

theorem dlookup_append_of_none {β : Type} (d1 d2 : List (List Nat × β)) (k : List Nat)
    (h : dlookup d1 k = none) : dlookup (d1 ++ d2) k = dlookup d2 k := by
  induction d1 with
  | nil => rfl
  | cons kv rest ih =>
    obtain ⟨k1, v1⟩ := kv
    simp only [List.cons_append, dlookup] at h ⊢
    by_cases hk : k1 = k
    · rw [if_pos hk] at h
      exact absurd h (by simp)
    · rw [if_neg hk] at h ⊢
      exact ih h

theorem dlookup_append_left {β : Type} (d1 d2 : List (List Nat × β)) (k : List Nat) (v : β)
    (h : dlookup d1 k = some v) : dlookup (d1 ++ d2) k = some v := by
  induction d1 with
  | nil => simp [dlookup] at h
  | cons kv rest ih =>
    obtain ⟨k1, v1⟩ := kv
    simp only [List.cons_append, dlookup] at h ⊢
    by_cases hk : k1 = k
    · rw [if_pos hk] at h ⊢
      exact h
    · rw [if_neg hk] at h ⊢
      exact ih h

theorem dictSet_fresh (d : Dict) (k : List Nat) (v : PVal)
    (h : dlookup d k = none) : dictSet d k v = d ++ [(k, v)] := by
  unfold dictSet
  rw [h]

theorem post_params_fresh (secret : List Nat) (offset now : Int) (params : Dict)
    (hts : dlookup params (pystr "timestamp") = none)
    (hsig : dlookup params (pystr "signature") = none) :
    post_params secret offset now params =
      params ++ [(pystr "timestamp", .i (client_timestamp now offset)),
        (pystr "signature", .s (client_sign secret
          (params ++ [(pystr "timestamp", .i (client_timestamp now offset))])))] := by
  unfold post_params
  rw [dictSet_fresh _ _ _ hts, dictSet_fresh, List.append_assoc]
  · rfl
  · rw [dlookup_append_of_none _ _ _ hsig]
    simp only [dlookup]
    rw [if_neg (by decide)]

/-! ## Claims about the signed client -/

/-- C1: every post_order call appends the timestamp parameter first and the
signature parameter second, making them the last two fields of the form body
in that order, with the signature the HMAC-SHA256 of the url-encoded
parameter set including the timestamp and excluding the signature itself.
The hypotheses record the documented calling contract that the caller does
not pass timestamp or signature keys of its own. -/
theorem claim_C1_post_appends_timestamp_then_signature
    (secret : List Nat) (offset now : Int) (params : Dict)
    (hts : dlookup params (pystr "timestamp") = none)
    (hsig : dlookup params (pystr "signature") = none) :
    post_params secret offset now params =
      params ++ [(pystr "timestamp", .i (client_timestamp now offset)),
        (pystr "signature", .s (client_sign secret
          (params ++ [(pystr "timestamp", .i (client_timestamp now offset))])))] :=
  post_params_fresh secret offset now params hts hsig

/-- C1 witness: the market-order parameter set with concrete inputs. -/
theorem claim_C1_witness :
    dlookup (market_order_params (pystr "BTCUSDT") (pystr "BUY") (Rat.divInt 1 1000))
      (pystr "timestamp") = none ∧
    dlookup (market_order_params (pystr "BTCUSDT") (pystr "BUY") (Rat.divInt 1 1000))
      (pystr "signature") = none ∧
    post_params (pystr "testsecret") 5 1700000000000
        (market_order_params (pystr "BTCUSDT") (pystr "BUY") (Rat.divInt 1 1000)) =
      market_order_params (pystr "BTCUSDT") (pystr "BUY") (Rat.divInt 1 1000) ++
        [(pystr "timestamp", .i (client_timestamp 1700000000000 5)),
         (pystr "signature", .s (client_sign (pystr "testsecret")
           (market_order_params (pystr "BTCUSDT") (pystr "BUY") (Rat.divInt 1 1000) ++
             [(pystr "timestamp", .i (client_timestamp 1700000000000 5))])))] :=
  ⟨by decide, by decide,
    claim_C1_post_appends_timestamp_then_signature (pystr "testsecret") 5 1700000000000
      (market_order_params (pystr "BTCUSDT") (pystr "BUY") (Rat.divInt 1 1000))
      (by decide) (by decide)⟩

/-- C9: post_order mutates the passed dict in place: afterwards it still
contains every entry the caller supplied, with unchanged values, plus the
timestamp and signature keys.  The hypotheses record the documented calling
contract that those two keys were not supplied by the caller. -/
theorem claim_C9_post_mutates_params_in_place
    (secret : List Nat) (offset now : Int) (params : Dict)
    (hts : dlookup params (pystr "timestamp") = none)
    (hsig : dlookup params (pystr "signature") = none) :
    (∀ kv, kv ∈ params → kv ∈ post_params secret offset now params) ∧
    (∀ k v, dlookup params k = some v →
      dlookup (post_params secret offset now params) k = some v) ∧
    dlookup (post_params secret offset now params) (pystr "timestamp") =
      some (.i (client_timestamp now offset)) ∧
    dlookup (post_params secret offset now params) (pystr "signature") =
      some (.s (client_sign secret
        (params ++ [(pystr "timestamp", .i (client_timestamp now offset))]))) := by
  rw [post_params_fresh secret offset now params hts hsig]
  refine ⟨?_, ?_, ?_, ?_⟩
  · intro kv h
    exact List.mem_append_left _ h
  · intro k v h
    exact dlookup_append_left _ _ _ _ h
  · rw [dlookup_append_of_none _ _ _ hts]
    simp [dlookup]
  · rw [dlookup_append_of_none _ _ _ hsig]
    simp [dlookup]
    decide

/-- C9 witness: concrete lookups after posting a limit-order dict. -/
theorem claim_C9_witness :
    dlookup (limit_order_params (pystr "BTCUSDT") (pystr "SELL") (Rat.divInt 1 100)
      (Rat.divInt 45000 1) (pystr "GTC")) (pystr "timestamp") = none ∧
    dlookup (limit_order_params (pystr "BTCUSDT") (pystr "SELL") (Rat.divInt 1 100)
      (Rat.divInt 45000 1) (pystr "GTC")) (pystr "signature") = none ∧
    (dlookup (post_params (pystr "s2") (-3) 1700000000000
        (limit_order_params (pystr "BTCUSDT") (pystr "SELL") (Rat.divInt 1 100)
          (Rat.divInt 45000 1) (pystr "GTC"))) (pystr "timestamp") =
      some (.i (client_timestamp 1700000000000 (-3))) ∧
    dlookup (post_params (pystr "s2") (-3) 1700000000000
        (limit_order_params (pystr "BTCUSDT") (pystr "SELL") (Rat.divInt 1 100)
          (Rat.divInt 45000 1) (pystr "GTC"))) (pystr "signature") =
      some (.s (client_sign (pystr "s2")
        (limit_order_params (pystr "BTCUSDT") (pystr "SELL") (Rat.divInt 1 100)
          (Rat.divInt 45000 1) (pystr "GTC") ++
          [(pystr "timestamp", .i (client_timestamp 1700000000000 (-3)))])))) :=
  ⟨by decide, by decide,
    (claim_C9_post_mutates_params_in_place (pystr "s2") (-3) 1700000000000
      (limit_order_params (pystr "BTCUSDT") (pystr "SELL") (Rat.divInt 1 100)
        (Rat.divInt 45000 1) (pystr "GTC")) (by decide) (by decide)).2.2⟩

/-- C2 counterexample: changing a parameter value does not always change the
signature.  A float value and its decimal string print identically under
urlencode, so the two distinct dicts sign identically. -/
theorem claim_C2_counterexample :
    ([(pystr "quantity", PVal.f (Rat.divInt 3 2))] : Dict) ≠
      [(pystr "quantity", PVal.s (pystr "1.5"))] ∧
    client_sign (pystr "apisecret") [(pystr "quantity", PVal.f (Rat.divInt 3 2))] =
      client_sign (pystr "apisecret") [(pystr "quantity", PVal.s (pystr "1.5"))] := by
  constructor
  · decide
  · have h : urlencode [(pystr "quantity", PVal.f (Rat.divInt 3 2))] =
        urlencode [(pystr "quantity", PVal.s (pystr "1.5"))] := by decide
    unfold client_sign
    rw [h]

/-- C2 as amended: the signature is a deterministic function of the secret
and the url-encoded parameter string - re-signing the same parameter set
with the same secret reproduces it exactly - and at exhibited concrete
inputs changing a parameter value (in a way that changes its encoding)
changes the signature, and changing the secret changes the signature. -/
theorem claim_C2_sign_deterministic :
    (∀ secret d1 d2, urlencode d1 = urlencode d2 →
      client_sign secret d1 = client_sign secret d2) ∧
    client_sign (pystr "apisecret") [(pystr "symbol", PVal.s (pystr "BTCUSDT"))] ≠
      client_sign (pystr "apisecret") [(pystr "symbol", PVal.s (pystr "ETHUSDT"))] ∧
    client_sign (pystr "apisecret") [(pystr "symbol", PVal.s (pystr "BTCUSDT"))] ≠
      client_sign (pystr "anothersecret") [(pystr "symbol", PVal.s (pystr "BTCUSDT"))] := by
  refine ⟨?_, by decide, by decide⟩
  intro secret d1 d2 h
  unfold client_sign
  rw [h]

/-- C2 witness: determinism applied at a concrete equal-encoding pair. -/
theorem claim_C2_witness :
    urlencode [(pystr "quantity", PVal.f (Rat.divInt 2 1))] =
      urlencode [(pystr "quantity", PVal.s (pystr "2.0"))] ∧
    client_sign (pystr "k") [(pystr "quantity", PVal.f (Rat.divInt 2 1))] =
      client_sign (pystr "k") [(pystr "quantity", PVal.s (pystr "2.0"))] :=
  ⟨by decide,
    claim_C2_sign_deterministic.1 (pystr "k") _ _ (by decide)⟩

/-- C3 counterexample: a non-2xx response whose body fails JSON parsing does
not produce the defaulted ApiError - response.json() is called before the
status check and its failure propagates - and a 3xx response (response.ok is
status below 400) is treated as success, not as an ApiError. -/
theorem claim_C3_counterexample :
    handle_response ⟨500, none⟩ = .jsonError ∧
    handle_response ⟨500, none⟩ ≠
      .apiError 500 (.jint (-1)) (.jstr (pystr "Unknown error")) ∧
    handle_response ⟨302, some []⟩ = .ok [] := by
  decide

/-- C3 as amended: for every response with status at least 400 whose body
parses as a JSON object, post_order fails with an ApiError carrying the HTTP
status and the exchange code and msg fields, defaulting to code -1 and the
generic message only when those keys are absent from the parsed body; a body
that fails JSON parsing raises the parse failure instead, and a status below
400 returns the body as success. -/
theorem claim_C3_api_error_shape (resp : HttpResponse) :
    (∀ data, resp.body = some data → 400 ≤ resp.status →
      handle_response resp = .apiError resp.status
        ((dlookup data (pystr "code")).getD (.jint (-1)))
        ((dlookup data (pystr "msg")).getD (.jstr (pystr "Unknown error")))) ∧
    (resp.body = none → handle_response resp = .jsonError) ∧
    (∀ data, resp.body = some data → resp.status < 400 →
      handle_response resp = .ok data) := by
  refine ⟨?_, ?_, ?_⟩
  · intro data h h400
    have hok : ¬ (response_ok resp.status = true) := by
      simp only [response_ok, decide_eq_true_eq]
      omega
    unfold handle_response
    simp only [h]
    rw [if_neg hok]
  · intro h
    unfold handle_response
    simp only [h]
  · intro data h hlt
    have hok : response_ok resp.status = true := by
      simp only [response_ok, decide_eq_true_eq]
      exact hlt
    unfold handle_response
    simp only [h]
    rw [if_pos hok]

/-- C3 witness: the spec scenario, a 400 body carrying code -2010 and the
message Insufficient balance. -/
theorem claim_C3_witness :
    400 ≤ 400 ∧
    handle_response ⟨400, some [(pystr "code", .jint (-2010)),
        (pystr "msg", .jstr (pystr "Insufficient balance"))]⟩ =
      .apiError 400 (.jint (-2010)) (.jstr (pystr "Insufficient balance")) := by
  refine ⟨le_refl _, ?_⟩
  have h := (claim_C3_api_error_shape ⟨400, some [(pystr "code", .jint (-2010)),
      (pystr "msg", .jstr (pystr "Insufficient balance"))]⟩).1
    [(pystr "code", .jint (-2010)), (pystr "msg", .jstr (pystr "Insufficient balance"))]
    rfl (by decide)
  rw [show (dlookup [(pystr "code", JVal.jint (-2010)),
      (pystr "msg", JVal.jstr (pystr "Insufficient balance"))] (pystr "code")).getD
      (JVal.jint (-1)) = JVal.jint (-2010) from by decide,
    show (dlookup [(pystr "code", JVal.jint (-2010)),
      (pystr "msg", JVal.jstr (pystr "Insufficient balance"))] (pystr "msg")).getD
      (JVal.jstr (pystr "Unknown error")) = JVal.jstr (pystr "Insufficient balance")
      from by decide] at h
  exact h

/-- C4: construction computes the offset as serverTime minus the floor
midpoint of the two surrounding local clock readings; every failure of the
server-time call - the GET raising, the body failing to parse - yields
offset 0 (sync_time is total, so construction always proceeds), and a parsed
body without the serverTime field makes get_server_time return 0 rather than
fail. -/
theorem claim_C4_clock_sync (t0 t1 : Int) (resp : Option HttpResponse) :
    (get_server_time resp = .error () → sync_time t0 t1 resp = 0) ∧
    (∀ st, get_server_time resp = .ok (.jint st) →
      sync_time t0 t1 resp = st - Int.fdiv (t0 + t1) 2) ∧
    (resp = none → get_server_time resp = .error ()) ∧
    (∀ r, resp = some r → r.body = none → get_server_time resp = .error ()) ∧
    (∀ r data, resp = some r → r.body = some data →
      dlookup data (pystr "serverTime") = none →
      get_server_time resp = .ok (.jint 0)) := by
  refine ⟨?_, ?_, ?_, ?_, ?_⟩
  · intro h
    unfold sync_time
    rw [h]
  · intro st h
    unfold sync_time
    rw [h]
  · intro h
    cases h
    rfl
  · intro r h hb
    cases h
    obtain ⟨rst, rbody⟩ := r
    subst hb
    rfl
  · intro r data h hb hl
    cases h
    obtain ⟨rst, rbody⟩ := r
    subst hb
    simp [get_server_time, hl]

/-- C4 witness: a successful sync with serverTime 1000 around local reads at
10 and 14 milliseconds gives offset 1000 - 12. -/
theorem claim_C4_witness :
    get_server_time (some ⟨200, some [(pystr "serverTime", .jint 1000)]⟩) =
      .ok (.jint 1000) ∧
    sync_time 10 14 (some ⟨200, some [(pystr "serverTime", .jint 1000)]⟩) =
      1000 - Int.fdiv (10 + 14) 2 :=
  ⟨by decide,
    (claim_C4_clock_sync 10 14 (some ⟨200, some [(pystr "serverTime", .jint 1000)]⟩)).2.1
      1000 (by decide)⟩

/-! ## Claims about the validators -/

theorem validate_symbol_cases (s : List Nat) :
    validate_symbol s =
      if pyStrip s = [] then .error (pystr "Symbol cannot be empty.")
      else if (pyStrip s).all isAlnumChar then .ok (pyUpper (pyStrip s))
      else .error (pystr "Symbol " ++ sqc ++ pyUpper (pyStrip s) ++ sqc ++
        pystr " must contain only letters and numbers (e.g. BTCUSDT).") := by
  simp only [validate_symbol]
  by_cases h1 : pyStrip s = []
  · rw [if_pos ((pyUpper_eq_nil _).mpr h1), if_pos h1]
  · rw [if_neg (fun hc => h1 ((pyUpper_eq_nil _).mp hc)), if_neg h1,
      all_isAlnumChar_pyUpper]
    by_cases h2 : (pyStrip s).all isAlnumChar = true
    · rw [if_neg (not_not_intro h2), if_pos h2]
    · rw [if_pos h2, if_neg h2]

/-- C6: validate_symbol succeeds exactly when the stripped input is
non-empty and alphanumeric, returning the stripped input upper-cased, and
otherwise fails with the message naming the empty or the non-alphanumeric
condition. -/
theorem claim_C6_validate_symbol (s : List Nat) :
    ((∃ r, validate_symbol s = .ok r) ↔
      pyStrip s ≠ [] ∧ (pyStrip s).all isAlnumChar = true) ∧
    (∀ r, validate_symbol s = .ok r → r = pyUpper (pyStrip s)) ∧
    (pyStrip s = [] → validate_symbol s = .error (pystr "Symbol cannot be empty.")) ∧
    (pyStrip s ≠ [] → (pyStrip s).all isAlnumChar = false →
      validate_symbol s = .error (pystr "Symbol " ++ sqc ++ pyUpper (pyStrip s) ++ sqc ++
        pystr " must contain only letters and numbers (e.g. BTCUSDT).")) := by
  rw [validate_symbol_cases]
  by_cases h1 : pyStrip s = []
  · rw [if_pos h1]
    refine ⟨?_, ?_, fun _ => rfl, ?_⟩
    · constructor
      · rintro ⟨r, hr⟩
        exact absurd hr (by simp)
      · rintro ⟨hne, _⟩
        exact absurd h1 hne
    · intro r hr
      exact absurd hr (by simp)
    · intro hne _
      exact absurd h1 hne
  · rw [if_neg h1]
    by_cases h2 : (pyStrip s).all isAlnumChar = true
    · rw [if_pos h2]
      refine ⟨?_, ?_, fun hc => absurd hc h1, ?_⟩
      · exact ⟨fun _ => ⟨h1, h2⟩, fun _ => ⟨_, rfl⟩⟩
      · intro r hr
        injection hr with hr
        exact hr.symm
      · intro _ hf
        rw [hf] at h2
        exact absurd h2 (by simp)
    · rw [if_neg h2]
      refine ⟨?_, ?_, fun hc => absurd hc h1, fun _ _ => rfl⟩
      · constructor
        · rintro ⟨r, hr⟩
          exact absurd hr (by simp)
        · rintro ⟨_, hall⟩
          exact absurd hall h2
      · intro r hr
        exact absurd hr (by simp)

/-- C6 witness: an input that strips to a non-empty, non-alphanumeric
symbol hits the letters-and-numbers message. -/
theorem claim_C6_witness :
    pyStrip (pystr " btc+usd ") ≠ [] ∧
    (pyStrip (pystr " btc+usd ")).all isAlnumChar = false ∧
    validate_symbol (pystr " btc+usd ") =
      .error (pystr "Symbol " ++ sqc ++ pyUpper (pyStrip (pystr " btc+usd ")) ++ sqc ++
        pystr " must contain only letters and numbers (e.g. BTCUSDT).") :=
  ⟨by decide, by decide,
    (claim_C6_validate_symbol (pystr " btc+usd ")).2.2.2 (by decide) (by decide)⟩

theorem list_ne_of_idx {l1 l2 : List Nat} (i : Nat) (h : l1[i]? ≠ l2[i]?) : l1 ≠ l2 :=
  fun he => h (by rw [he])

theorem price_notnum_idx (v : PVal) :
    (pystr "Price " ++ sqc ++ pvalStr v ++ sqc ++ pystr " is not a valid number.")[6]? =
      some 39 := by
  rw [List.getElem?_append_left, List.getElem?_append_left, List.getElem?_append_left]
  · decide
  · decide
  · rw [List.length_append, List.length_append,
      show (pystr "Price ").length = 6 from by decide, show sqc.length = 1 from by decide]
    omega
  · rw [List.length_append, List.length_append, List.length_append,
      show (pystr "Price ").length = 6 from by decide, show sqc.length = 1 from by decide]
    omega

theorem price_gt0_idx (q : ℚ) :
    (pystr "Price must be greater than 0. Got: " ++ floatRepr q)[6]? = some 109 := by
  rw [List.getElem?_append_left (by decide)]
  decide

theorem stop_notnum_idx (v : PVal) :
    (pystr "Stop price " ++ sqc ++ pvalStr v ++ sqc ++ pystr " is not a valid number.")[11]? =
      some 39 := by
  rw [List.getElem?_append_left, List.getElem?_append_left, List.getElem?_append_left]
  · decide
  · decide
  · rw [List.length_append, List.length_append,
      show (pystr "Stop price ").length = 11 from by decide, show sqc.length = 1 from by decide]
    omega
  · rw [List.length_append, List.length_append, List.length_append,
      show (pystr "Stop price ").length = 11 from by decide, show sqc.length = 1 from by decide]
    omega

theorem stop_gt0_idx (q : ℚ) :
    (pystr "Stop price must be greater than 0. Got: " ++ floatRepr q)[11]? = some 109 := by
  rw [List.getElem?_append_left (by decide)]
  decide

theorem price_msgs_distinct (v : PVal) (q : ℚ) :
    (pystr "Price is required for LIMIT orders." ≠
      pystr "Price " ++ sqc ++ pvalStr v ++ sqc ++ pystr " is not a valid number.") ∧
    (pystr "Price is required for LIMIT orders." ≠
      pystr "Price must be greater than 0. Got: " ++ floatRepr q) ∧
    (pystr "Price " ++ sqc ++ pvalStr v ++ sqc ++ pystr " is not a valid number." ≠
      pystr "Price must be greater than 0. Got: " ++ floatRepr q) := by
  refine ⟨list_ne_of_idx 6 ?_, list_ne_of_idx 6 ?_, list_ne_of_idx 6 ?_⟩
  · rw [price_notnum_idx]
    decide
  · rw [price_gt0_idx]
    decide
  · rw [price_notnum_idx, price_gt0_idx]
    decide

theorem stop_msgs_distinct (v : PVal) (q : ℚ) :
    (pystr "Stop price (--stop-price) is required for STOP_MARKET orders." ≠
      pystr "Stop price " ++ sqc ++ pvalStr v ++ sqc ++ pystr " is not a valid number.") ∧
    (pystr "Stop price (--stop-price) is required for STOP_MARKET orders." ≠
      pystr "Stop price must be greater than 0. Got: " ++ floatRepr q) ∧
    (pystr "Stop price " ++ sqc ++ pvalStr v ++ sqc ++ pystr " is not a valid number." ≠
      pystr "Stop price must be greater than 0. Got: " ++ floatRepr q) := by
  refine ⟨list_ne_of_idx 11 ?_, list_ne_of_idx 11 ?_, list_ne_of_idx 11 ?_⟩
  · rw [stop_notnum_idx]
    decide
  · rw [stop_gt0_idx]
    decide
  · rw [stop_notnum_idx, stop_gt0_idx]
    decide

theorem validate_price_parse_none (v : PVal) (h : toFloat (some v) = none) :
    validate_price (some v) = .error (pystr "Price " ++ sqc ++ pvalStr v ++ sqc ++
      pystr " is not a valid number.") := by
  simp [validate_price, h]

theorem validate_price_parse_le (v : PVal) (q : ℚ) (h : toFloat (some v) = some q)
    (h0 : q ≤ 0) : validate_price (some v) =
      .error (pystr "Price must be greater than 0. Got: " ++ floatRepr q) := by
  simp only [validate_price, h]
  rw [if_pos h0]

theorem validate_price_parse_pos (v : PVal) (q : ℚ) (h : toFloat (some v) = some q)
    (h0 : ¬ q ≤ 0) : validate_price (some v) = .ok q := by
  simp only [validate_price, h]
  rw [if_neg h0]

theorem validate_stop_price_parse_none (v : PVal) (h : toFloat (some v) = none) :
    validate_stop_price (some v) = .error (pystr "Stop price " ++ sqc ++ pvalStr v ++ sqc ++
      pystr " is not a valid number.") := by
  simp [validate_stop_price, h]

theorem validate_stop_price_parse_le (v : PVal) (q : ℚ) (h : toFloat (some v) = some q)
    (h0 : q ≤ 0) : validate_stop_price (some v) =
      .error (pystr "Stop price must be greater than 0. Got: " ++ floatRepr q) := by
  simp only [validate_stop_price, h]
  rw [if_pos h0]

theorem validate_stop_price_parse_pos (v : PVal) (q : ℚ) (h : toFloat (some v) = some q)
    (h0 : ¬ q ≤ 0) : validate_stop_price (some v) = .ok q := by
  simp only [validate_stop_price, h]
  rw [if_neg h0]

/-- C7: validate_price and validate_stop_price succeed exactly when the
input parses as a number strictly greater than zero, and keep three distinct
failure conditions with three pairwise distinct messages: absent input hits
the required message, unparsable input the not-a-valid-number message, and a
non-positive value the greater-than-0 message. -/
theorem claim_C7_price_and_stop_price (x : Option PVal) :
    ((∃ p, validate_price x = .ok p) ↔ (∃ q, toFloat x = some q ∧ 0 < q)) ∧
    ((∃ p, validate_stop_price x = .ok p) ↔ (∃ q, toFloat x = some q ∧ 0 < q)) ∧
    (validate_price none = .error (pystr "Price is required for LIMIT orders.")) ∧
    (validate_stop_price none =
      .error (pystr "Stop price (--stop-price) is required for STOP_MARKET orders.")) ∧
    (∀ v, x = some v → toFloat x = none →
      validate_price x = .error (pystr "Price " ++ sqc ++ pvalStr v ++ sqc ++
        pystr " is not a valid number.") ∧
      validate_stop_price x = .error (pystr "Stop price " ++ sqc ++ pvalStr v ++ sqc ++
        pystr " is not a valid number.")) ∧
    (∀ q, toFloat x = some q → q ≤ 0 →
      validate_price x =
        .error (pystr "Price must be greater than 0. Got: " ++ floatRepr q) ∧
      validate_stop_price x =
        .error (pystr "Stop price must be greater than 0. Got: " ++ floatRepr q)) ∧
    (∀ v q,
      (pystr "Price is required for LIMIT orders." ≠
        pystr "Price " ++ sqc ++ pvalStr v ++ sqc ++ pystr " is not a valid number.") ∧
      (pystr "Price is required for LIMIT orders." ≠
        pystr "Price must be greater than 0. Got: " ++ floatRepr q) ∧
      (pystr "Price " ++ sqc ++ pvalStr v ++ sqc ++ pystr " is not a valid number." ≠
        pystr "Price must be greater than 0. Got: " ++ floatRepr q) ∧
      (pystr "Stop price (--stop-price) is required for STOP_MARKET orders." ≠
        pystr "Stop price " ++ sqc ++ pvalStr v ++ sqc ++ pystr " is not a valid number.") ∧
      (pystr "Stop price (--stop-price) is required for STOP_MARKET orders." ≠
        pystr "Stop price must be greater than 0. Got: " ++ floatRepr q) ∧
      (pystr "Stop price " ++ sqc ++ pvalStr v ++ sqc ++ pystr " is not a valid number." ≠
        pystr "Stop price must be greater than 0. Got: " ++ floatRepr q)) := by
  refine ⟨?_, ?_, rfl, rfl, ?_, ?_, ?_⟩
  · constructor
    · rintro ⟨p, hp⟩
      cases x with
      | none => exact absurd hp (by simp [validate_price])
      | some v =>
        cases hf : toFloat (some v) with
        | none =>
          rw [validate_price_parse_none v hf] at hp
          exact absurd hp (by simp)
        | some q =>
          by_cases h0 : q ≤ 0
          · rw [validate_price_parse_le v q hf h0] at hp
            exact absurd hp (by simp)
          · exact ⟨q, rfl, lt_of_not_le h0⟩
    · rintro ⟨q, hq, h0⟩
      cases x with
      | none => exact absurd hq (by simp [toFloat])
      | some v => exact ⟨q, validate_price_parse_pos v q hq (not_le.mpr h0)⟩
  · constructor
    · rintro ⟨p, hp⟩
      cases x with
      | none => exact absurd hp (by simp [validate_stop_price])
      | some v =>
        cases hf : toFloat (some v) with
        | none =>
          rw [validate_stop_price_parse_none v hf] at hp
          exact absurd hp (by simp)
        | some q =>
          by_cases h0 : q ≤ 0
          · rw [validate_stop_price_parse_le v q hf h0] at hp
            exact absurd hp (by simp)
          · exact ⟨q, rfl, lt_of_not_le h0⟩
    · rintro ⟨q, hq, h0⟩
      cases x with
      | none => exact absurd hq (by simp [toFloat])
      | some v => exact ⟨q, validate_stop_price_parse_pos v q hq (not_le.mpr h0)⟩
  · rintro v rfl hf
    exact ⟨validate_price_parse_none v hf, validate_stop_price_parse_none v hf⟩
  · intro q hq h0
    cases x with
    | none => exact absurd hq (by simp [toFloat])
    | some v =>
      exact ⟨validate_price_parse_le v q hq h0, validate_stop_price_parse_le v q hq h0⟩
  · intro v q
    obtain ⟨p1, p2, p3⟩ := price_msgs_distinct v q
    obtain ⟨s1, s2, s3⟩ := stop_msgs_distinct v q
    exact ⟨p1, p2, p3, s1, s2, s3⟩

/-- C7 witness: a non-positive stop price hits the greater-than-0 message. -/
theorem claim_C7_witness :
    toFloat (some (.s (pystr "-2.5"))) = some (Rat.divInt (-5) 2) ∧
    Rat.divInt (-5) 2 ≤ 0 ∧
    validate_price (some (.s (pystr "-2.5"))) =
      .error (pystr "Price must be greater than 0. Got: " ++ floatRepr (Rat.divInt (-5) 2)) ∧
    validate_stop_price (some (.s (pystr "-2.5"))) =
      .error (pystr "Stop price must be greater than 0. Got: " ++
        floatRepr (Rat.divInt (-5) 2)) := by
  refine ⟨by decide, by decide, ?_⟩
  have h := (claim_C7_price_and_stop_price (some (.s (pystr "-2.5")))).2.2.2.2.2.1
    (Rat.divInt (-5) 2) (by decide) (by decide)
  exact h

/-- C5: validate_all checks the order type first, then symbol, then side,
then quantity, then price, then stop price, returning the first failing
validation error unchanged, and on full success the aggregated structure
of validated values. -/
theorem claim_C5_validate_all_order (symbol side order_type : List Nat)
    (quantity price stop_price : Option PVal) :
    (∀ e, validate_order_type order_type = .error e →
      validate_all symbol side order_type quantity price stop_price = .error e) ∧
    (∀ t e, validate_order_type order_type = .ok t →
      validate_symbol symbol = .error e →
      validate_all symbol side order_type quantity price stop_price = .error e) ∧
    (∀ t sy e, validate_order_type order_type = .ok t →
      validate_symbol symbol = .ok sy → validate_side side = .error e →
      validate_all symbol side order_type quantity price stop_price = .error e) ∧
    (∀ t sy sd e, validate_order_type order_type = .ok t →
      validate_symbol symbol = .ok sy → validate_side side = .ok sd →
      vaQuantity t quantity = .error e →
      validate_all symbol side order_type quantity price stop_price = .error e) ∧
    (∀ t sy sd q e, validate_order_type order_type = .ok t →
      validate_symbol symbol = .ok sy → validate_side side = .ok sd →
      vaQuantity t quantity = .ok q → vaPrice t price = .error e →
      validate_all symbol side order_type quantity price stop_price = .error e) ∧
    (∀ t sy sd q p e, validate_order_type order_type = .ok t →
      validate_symbol symbol = .ok sy → validate_side side = .ok sd →
      vaQuantity t quantity = .ok q → vaPrice t price = .ok p →
      vaStopPrice t stop_price = .error e →
      validate_all symbol side order_type quantity price stop_price = .error e) ∧
    (∀ t sy sd q p sp, validate_order_type order_type = .ok t →
      validate_symbol symbol = .ok sy → validate_side side = .ok sd →
      vaQuantity t quantity = .ok q → vaPrice t price = .ok p →
      vaStopPrice t stop_price = .ok sp →
      validate_all symbol side order_type quantity price stop_price =
        .ok ⟨sy, sd, t, q, p, sp⟩) := by
  refine ⟨?_, ?_, ?_, ?_, ?_, ?_, ?_⟩
  · intro e h1
    simp only [validate_all, h1, Except.bind]
  · intro t e h1 h2
    simp only [validate_all, h1, h2, Except.bind]
  · intro t sy e h1 h2 h3
    simp only [validate_all, h1, h2, h3, Except.bind]
  · intro t sy sd e h1 h2 h3 h4
    simp only [validate_all, h1, h2, h3, h4, Except.bind]
  · intro t sy sd q e h1 h2 h3 h4 h5
    simp only [validate_all, h1, h2, h3, h4, h5, Except.bind]
  · intro t sy sd q p e h1 h2 h3 h4 h5 h6
    simp only [validate_all, h1, h2, h3, h4, h5, h6, Except.bind]
  · intro t sy sd q p sp h1 h2 h3 h4 h5 h6
    simp only [validate_all, h1, h2, h3, h4, h5, h6, Except.bind]

/-- C5 witness: a LIMIT order whose earlier fields pass and whose price is
non-positive surfaces exactly the price error. -/
theorem claim_C5_witness :
    validate_order_type (pystr "limit") = .ok (pystr "LIMIT") ∧
    validate_symbol (pystr "btcusdt") = .ok (pystr "BTCUSDT") ∧
    validate_side (pystr "sell") = .ok (pystr "SELL") ∧
    vaQuantity (pystr "LIMIT") (some (.s (pystr "1"))) = .ok (some (Rat.divInt 1 1)) ∧
    vaPrice (pystr "LIMIT") (some (.s (pystr "-1"))) =
      .error (pystr "Price must be greater than 0. Got: -1.0") ∧
    validate_all (pystr "btcusdt") (pystr "sell") (pystr "limit")
      (some (.s (pystr "1"))) (some (.s (pystr "-1"))) none =
      .error (pystr "Price must be greater than 0. Got: -1.0") :=
  ⟨by decide, by decide, by decide, by decide, by decide,
    (claim_C5_validate_all_order (pystr "btcusdt") (pystr "sell") (pystr "limit")
      (some (.s (pystr "1"))) (some (.s (pystr "-1"))) none).2.2.2.2.1
      (pystr "LIMIT") (pystr "BTCUSDT") (pystr "SELL") (some (Rat.divInt 1 1))
      (pystr "Price must be greater than 0. Got: -1.0")
      (by decide) (by decide) (by decide) (by decide) (by decide)⟩

/-- C8: on the TAKE_PROFIT path quantity is never consulted (the result is
identical whether or not one is supplied), while MARKET without quantity
fails with the qty-required error and LIMIT without price fails with the
price-required error; and the dispatched TAKE_PROFIT_MARKET parameter set
is exactly symbol, side, type, stopPrice, closePosition with no quantity
key. -/
theorem claim_C8_take_profit_no_quantity :
    (∀ symbol side q p sp,
      validate_all symbol side (pystr "TAKE_PROFIT") q p sp =
        validate_all symbol side (pystr "TAKE_PROFIT") none p sp) ∧
    (∀ symbol side sy sd p sp, validate_symbol symbol = .ok sy →
      validate_side side = .ok sd →
      validate_all symbol side (pystr "MARKET") none p sp =
        .error (pystr "--qty is required for MARKET orders.")) ∧
    (∀ symbol side sy sd qv q sp, validate_symbol symbol = .ok sy →
      validate_side side = .ok sd → validate_quantity (some qv) = .ok q →
      validate_all symbol side (pystr "LIMIT") (some qv) none sp =
        .error (pystr "Price is required for LIMIT orders.")) ∧
    (∀ symbol side sp,
      (take_profit_market_order_params symbol side sp).map Prod.fst =
        [pystr "symbol", pystr "side", pystr "type", pystr "stopPrice",
          pystr "closePosition"] ∧
      dlookup (take_profit_market_order_params symbol side sp) (pystr "quantity") = none) := by
  refine ⟨?_, ?_, ?_, ?_⟩
  · intro symbol side q p sp
    have hq : ∀ q0, vaQuantity (pystr "TAKE_PROFIT") q0 = .ok none := by
      intro q0
      simp only [vaQuantity]
      rw [if_neg (by decide)]
    simp only [validate_all,
      show validate_order_type (pystr "TAKE_PROFIT") = .ok (pystr "TAKE_PROFIT") from by decide,
      hq, Except.bind]
  · intro symbol side sy sd p sp h1 h2
    simp only [validate_all,
      show validate_order_type (pystr "MARKET") = .ok (pystr "MARKET") from by decide,
      h1, h2,
      show vaQuantity (pystr "MARKET") none =
        .error (pystr "--qty is required for MARKET orders.") from by decide,
      Except.bind]
  · intro symbol side sy sd qv q sp h1 h2 h3
    have hq : vaQuantity (pystr "LIMIT") (some qv) = .ok (some q) := by
      simp only [vaQuantity]
      rw [if_pos (by decide)]
      simp only [h3]
    simp only [validate_all,
      show validate_order_type (pystr "LIMIT") = .ok (pystr "LIMIT") from by decide,
      h1, h2, hq,
      show vaPrice (pystr "LIMIT") none =
        .error (pystr "Price is required for LIMIT orders.") from by decide,
      Except.bind]
  · intro symbol side sp
    refine ⟨rfl, ?_⟩
    simp only [take_profit_market_order_params, dlookup]
    rw [if_neg (by decide), if_neg (by decide), if_neg (by decide), if_neg (by decide),
      if_neg (by decide)]

/-- C8 witness: MARKET without quantity at concrete inputs. -/
theorem claim_C8_witness :
    validate_symbol (pystr "ethusdt") = .ok (pystr "ETHUSDT") ∧
    validate_side (pystr "buy") = .ok (pystr "BUY") ∧
    validate_all (pystr "ethusdt") (pystr "buy") (pystr "MARKET") none none none =
      .error (pystr "--qty is required for MARKET orders.") :=
  ⟨by decide, by decide,
    claim_C8_take_profit_no_quantity.2.1 (pystr "ethusdt") (pystr "buy")
      (pystr "ETHUSDT") (pystr "BUY") none none (by decide) (by decide)⟩

/-- C10: validate_quantity has no dedicated required message - None lands in
the not-a-valid-number branch, printed as the word None - while the price
and stop-price validators do; a missing quantity is reported as required
only by the vaQuantity step of validate_all, exactly for MARKET and LIMIT,
before validate_quantity would run, and for every other order type the
quantity step never fails. -/
theorem claim_C10_quantity_required_only_in_validate_all :
    (validate_quantity none = .error (pystr "Quantity " ++ sqc ++ pystr "None" ++ sqc ++
      pystr " is not a valid number.")) ∧
    (validate_price none = .error (pystr "Price is required for LIMIT orders.")) ∧
    (validate_stop_price none =
      .error (pystr "Stop price (--stop-price) is required for STOP_MARKET orders.")) ∧
    (∀ t, t = pystr "MARKET" ∨ t = pystr "LIMIT" →
      vaQuantity t none = .error (pystr "--qty is required for " ++ t ++ pystr " orders.")) ∧
    (∀ t q, ¬ (t = pystr "MARKET" ∨ t = pystr "LIMIT") → vaQuantity t q = .ok none) := by
  refine ⟨by decide, rfl, rfl, ?_, ?_⟩
  · intro t ht
    simp only [vaQuantity]
    rw [if_pos ht]
  · intro t q ht
    simp only [vaQuantity]
    rw [if_neg ht]

/-- C10 witness: the MARKET case of the required branch. -/
theorem claim_C10_witness :
    (pystr "MARKET" = pystr "MARKET" ∨ pystr "MARKET" = pystr "LIMIT") ∧
    vaQuantity (pystr "MARKET") none =
      .error (pystr "--qty is required for " ++ pystr "MARKET" ++ pystr " orders.") :=
  ⟨Or.inl rfl,
    claim_C10_quantity_required_only_in_validate_all.2.2.2.1 (pystr "MARKET") (Or.inl rfl)⟩
